import Mathlib

/-! Shallow embedding of `WeatherRoutingTool/algorithms/genetic_utils.py`:
population initializers, the genetic crossover and mutation operators, and the
constraint side of the routing problem, together with theorems settling the
specification claims about them.

Conventions:
* Coordinates are exact rationals; a waypoint is a `(lat, lon)` pair, matching
  the `[lat, lon]` rows of the Python routes.
* External collaborators (the geodesic library, the cost-grid pathfinder, the
  grid codec, the constraint checker, the plotting hook) enter as oracle
  parameters.
* Python exceptions are modelled with `Except`; a raised exception is the
  `Except.error` value. -/

namespace GeneticUtils

/-- A waypoint: `(latitude, longitude)` in degrees, as exact rationals. -/
abbrev Pt := ℚ × ℚ

/-- The Python builtin `round` (round half to even) on rationals. -/
def pyRound (q : ℚ) : ℤ :=
  let f := ⌊q⌋
  let r := q - f
  if r < 1 / 2 then f
  else if 1 / 2 < r then f + 1
  else if f % 2 = 0 then f else f + 1

/-- Python exception classes relevant to `genetic_utils.py`.
`invalidRouteError` is the typed precondition error the specification names;
no such class exists in the source, so the only value the embedded code
itself ever produces is `valueError` (raised by `random.randint` on an empty
range). -/
inductive PyErr where
  | valueError
  | invalidRouteError
deriving DecidableEq, Repr

/-- Embedding of `GeneticCrossover.get_connection` (genetic_utils.py:202-234).
`dist` is the value `geod.inverse(...)` returns for the four arguments — the
external geodesic library is an oracle, so the distance is a parameter.
`npoints = round(dist / 50000)` with the Python banker rounding.  The loop
runs `ipoint = 0 .. npoints - 2` — `max(npoints - 1, 0)` iterations, i.e.
`(npoints - 1).toNat` — accumulating `x += delta_lats` and `y += delta_lons`
and appending `(y, x)`; in exact arithmetic the point appended at iteration
`k` is `(lon_start + delta_lons * (k+1), lat_start + delta_lats * (k+1))`.
When `npoints = 0` the source divides the `np.float64` coordinate difference
by the integer zero, which emits a `RuntimeWarning` and yields `nan`/`inf`
(routes are numpy arrays, so no `ZeroDivisionError` is raised); the deltas
are then never used because `range(0, -1)` is empty, and the function returns
the empty connector normally — mirrored here by the total rational division
(`x / 0 = 0`, likewise unused) and the empty `List.range`. -/
def get_connection (dist lat_start lon_start lat_end lon_end : ℚ) : List Pt :=
  let point_distance : ℚ := 50000
  let npoints : ℤ := pyRound (dist / point_distance)
  let delta_lats : ℚ := (lat_end - lat_start) / (npoints : ℚ)
  let delta_lons : ℚ := (lon_end - lon_start) / (npoints : ℚ)
  (List.range (npoints - 1).toNat).map (fun (k : ℕ) =>
    (lon_start + delta_lons * ((k : ℚ) + 1),
     lat_start + delta_lats * ((k : ℚ) + 1)))

/-- The connector for one child, as `crossover_noint` builds it: the source
calls `get_connection(p[i][1], p[i][0], q[j][1], q[j][0])`, i.e. it passes the
longitude of each `[lat, lon]` row where `get_connection` expects a latitude
and vice versa; the `dist` oracle receives the four scalars in exactly that
order, mirroring the internal `geod.inverse([lat_start], [lon_start], ...)`
call. -/
def conn_for (dist : ℚ → ℚ → ℚ → ℚ → ℚ) (p q : List Pt) (i j : ℕ) : List Pt :=
  let a := p.getD i (0, 0)
  let b := q.getD j (0, 0)
  get_connection (dist a.2 a.1 b.2 b.1) a.2 a.1 b.2 b.1

/-- Embedding of `GeneticCrossover.crossover_noint` (genetic_utils.py:177-200).
`c1`, `c2` are the values drawn by the two `random.randint(1, minlength - 2)`
calls; when `minlength - 2 < 1` (i.e. `minlength < 3`) the first draw itself
raises `ValueError` before anything else happens.  The Python test
`if not connect_child1` is the empty-list test, and the children are built with
`parent1[:(connect1 + 1)]` (take `c1 + 1`) and `parent2[connect2:]`
(drop `c2`); both children use `connect1` for the head segment and `connect2`
for the tail segment. -/
def crossover_noint (dist : ℚ → ℚ → ℚ → ℚ → ℚ) (c1 c2 : ℕ)
    (parent1 parent2 : List Pt) : Except PyErr (List Pt × List Pt) :=
  let minlength := min parent1.length parent2.length
  if minlength < 3 then .error .valueError
  else
    let connect_child1 := conn_for dist parent1 parent2 c1 c2
    let connect_child2 := conn_for dist parent2 parent1 c1 c2
    .ok (if connect_child1 = [] then
           parent1.take (c1 + 1) ++ parent2.drop c2
         else parent1.take (c1 + 1) ++ connect_child1 ++ parent2.drop c2,
         if connect_child2 = [] then
           parent2.take (c1 + 1) ++ parent1.drop c2
         else parent2.take (c1 + 1) ++ connect_child2 ++ parent1.drop c2)

/-- The `GeneticCrossover` state (genetic_utils.py:145-149): `__init__` calls
`super().__init__(2, 2)` (two parents, two offsprings) and stores
`self.prob = prob`. -/
structure GeneticCrossover where
  n_parents : ℕ
  n_offsprings : ℕ
  prob : ℚ

/-- `GeneticCrossover.__init__` with its stored probability (source default 1). -/
def GeneticCrossover.init (prob : ℚ) : GeneticCrossover :=
  { n_parents := 2, n_offsprings := 2, prob := prob }

/-- Embedding of `GeneticCrossover._do` (genetic_utils.py:151-160): for every
mating `k` it applies `crossover_noint` to the two parents `X[0,k,0]` and
`X[1,k,0]`; `draws k` are the two `randint` values of mating `k`.  The body
reads nothing from the crossover object (in particular not `prob`), which the
unused receiver makes explicit. -/
def GeneticCrossover.apply_do (_g : GeneticCrossover) (dist : ℚ → ℚ → ℚ → ℚ → ℚ)
    (draws : ℕ → ℕ × ℕ) (X : List (List Pt × List Pt)) :
    List (Except PyErr (List Pt × List Pt)) :=
  (List.range X.length).map (fun k =>
    crossover_noint dist (draws k).1 (draws k).2
      (X.getD k ([], [])).1 (X.getD k ([], [])).2)

/-- Embedding of `GridBasedMutation.mutate_move` (genetic_utils.py:284-321).
`start`, `end_` are the values drawn by `random.randint(1, size - 2)` and
`random.randint(start, size - 2)`, and `offset` the value
`random.uniform(-1, 1) * max_dist`.  Net effect of the write loop
(`route[route_ind] = (seg[i][0] + offset, seg[i][1] + offset)`, with
`route_segment` a view into `route`): every waypoint with index in
`[start, end_]` is shifted by `offset` in both coordinates, all other
waypoints are untouched. -/
def mutate_move (route : List Pt) (start end_ : ℕ) (offset : ℚ) : List Pt :=
  (List.range route.length).map (fun i =>
    if start ≤ i ∧ i ≤ end_ then
      ((route.getD i (0, 0)).1 + offset, (route.getD i (0, 0)).2 + offset)
    else route.getD i (0, 0))

/-- The call-level view of `mutate_move`: the source returns `route`, the very
numpy array it received and wrote into (`route_segment = route[start:end+1]`
is a view, and `route[route_ind] = ...` writes into the argument), so after
the call the caller array and the returned value are one object in the mutated
state.  First component: the returned route; second component: the state of
the argument after the call. -/
def mutate_move_call (route : List Pt) (start end_ : ℕ) (offset : ℚ) :
    List Pt × List Pt :=
  (mutate_move route start end_ offset, mutate_move route start end_ offset)

/-- One individual step of `GridBasedMutation._do` (genetic_utils.py:255-267):
with `u = np.random.uniform(0, 1)`, mutate when `u < prob`, otherwise pass the
route through unchanged. -/
def gridBasedMutation_do_one (prob u : ℚ) (start end_ : ℕ) (offset : ℚ)
    (route : List Pt) : List Pt :=
  if u < prob then mutate_move route start end_ offset else route

/-- Embedding of `RoutingProblem.is_neg_constraints` (genetic_utils.py:371-377).
Modelled from the spec: `self.constraint_list.safe_endpoint` lives outside the
provided sources and is specified as `isUnsafe(lats, lons, time) → boolean per
point`; `checker` is that per-point boolean, with the `time` argument (always
`None` in the source) dropped.  The source line
`return 0 if not is_constrained else 1` tests the truthiness of the one-element
result array, which is the truth value of its single element. -/
def is_neg_constraints (checker : ℚ → ℚ → Bool) (lat lon : ℚ) : ℕ :=
  if checker lat lon then 1 else 0

/-- Embedding of `RoutingProblem.get_constraints` (genetic_utils.py:379-382):
`np.sum` of the per-waypoint violation indicators. -/
def get_constraints (checker : ℚ → ℚ → Bool) (route : List Pt) : ℕ :=
  (route.map (fun p => is_neg_constraints checker p.1 p.2)).sum

/-- Embedding of `FromGeojsonPopulation.read_route_from_file`
(genetic_utils.py:102-112): each geojson feature carries a
`[longitude, latitude]` coordinate pair and the route collects
`[coordinates[1], coordinates[0]]`, i.e. the `(lat, lon)` swap.  The parsed
feature coordinate pairs are the input; file parsing itself is the external
`json.load`. -/
def read_route_from_file (features : List (ℚ × ℚ)) : List Pt :=
  features.map (fun c => (c.2, c.1))

/-- Embedding of `FromGeojsonPopulation.get_great_circle_route`
(genetic_utils.py:86-100).  The external WGS84 geodesic library is the oracle
`inverseLine`, sending `(src, dest)` to the pair of the total geodesic length
`s13` and the arc-length parametrisation `Position`; `distance` is the step
(source default 100000 m).  `n = int(ceil(s13 / distance))` and the route is
`[Position(min(distance * i, s13)) | i = 0 .. n]` — the last segment is
clipped by the `min`. -/
def get_great_circle_route (inverseLine : Pt → Pt → ℚ × (ℚ → Pt))
    (src dest : Pt) (distance : ℚ) : List Pt :=
  let line := inverseLine src dest
  let s13 := line.1
  let pos := line.2
  let n : ℕ := (Int.ceil (s13 / distance)).toNat
  (List.range (n + 1)).map (fun (i : ℕ) => pos (min (distance * (i : ℚ)) s13))

/-- Embedding of `FromGeojsonPopulation._do` (genetic_utils.py:67-84) without
the trailing plot call (for which see `fromGeojson_do_plot`).  `files i` is
the parsed feature list of `route_<i>.json`, or `none` when opening the file
raises `FileNotFoundError`; in that case the sample falls back to the great
circle route at the default 100 km step (the `except FileNotFoundError`
branch). -/
def fromGeojson_do (src dest : Pt) (inverseLine : Pt → Pt → ℚ × (ℚ → Pt))
    (files : ℕ → Option (List (ℚ × ℚ))) (n_samples : ℕ) : List (List Pt) :=
  (List.range n_samples).map (fun i =>
    match files (i + 1) with
    | some features => read_route_from_file features
    | none => get_great_circle_route inverseLine src dest 100000)

/-- Embedding of `GridBasedPopulation._do` (genetic_utils.py:39-53) without
the trailing plot call.  Modelled from the spec: the grid codec
(`GridMixin.coords_to_index` / `index_to_coords`, defined in `data_utils.py`
which is not among the provided sources), the per-call shuffled cost surface
and the external pathfinder `route_through_array` are collapsed into the
per-sample oracle `sampleRoute`, because the loop body is exactly
`routes[i][0] = index_to_coords(route_through_array(shuffled_cost_i, start,
end))` — one route per sample, produced by externally-modelled machinery. -/
def gridBased_do (sampleRoute : ℕ → List Pt) (n_samples : ℕ) : List (List Pt) :=
  (List.range n_samples).map sampleRoute

/-- `FromGeojsonPopulation._do` including the trailing
`plot_genetic_algorithm_initial_population` call (genetic_utils.py:82-84).
The hook body belongs to `utils/graphics.py`, which is not among the provided
sources, so it is an arbitrary fallible callback; the source invokes it with
no `try`/`except` around it, so an exception it raises escapes `_do` and the
routes are returned only when the hook returns normally. -/
def fromGeojson_do_plot (hook : List (List Pt) → Except PyErr Unit)
    (src dest : Pt) (inverseLine : Pt → Pt → ℚ × (ℚ → Pt))
    (files : ℕ → Option (List (ℚ × ℚ))) (n_samples : ℕ) :
    Except PyErr (List (List Pt)) :=
  let routes := fromGeojson_do src dest inverseLine files n_samples
  match hook routes with
  | .ok _ => .ok routes
  | .error e => .error e

/-- `GridBasedPopulation._do` including the trailing plot call
(genetic_utils.py:51-53); as in `fromGeojson_do_plot` the hook is invoked
unguarded. -/
def gridBased_do_plot (hook : List (List Pt) → Except PyErr Unit)
    (sampleRoute : ℕ → List Pt) (n_samples : ℕ) :
    Except PyErr (List (List Pt)) :=
  let routes := gridBased_do sampleRoute n_samples
  match hook routes with
  | .ok _ => .ok routes
  | .error e => .error e

/-! Helper lemmas about lists built as `(List.range n).map f`, the shape every
embedded loop produces. -/

theorem length_map_range {α : Type*} (f : ℕ → α) (n : ℕ) :
    ((List.range n).map f).length = n := by
  simp

theorem get?_map_range {α : Type*} (f : ℕ → α) {n i : ℕ} (h : i < n) :
    ((List.range n).map f).get? i = some (f i) := by
  rw [List.get?_map, List.get?_range h]
  rfl

theorem head?_map_range {α : Type*} (f : ℕ → α) {n : ℕ} (h : 0 < n) :
    ((List.range n).map f).head? = some (f 0) := by
  obtain ⟨m, rfl⟩ : ∃ m, n = m + 1 := ⟨n - 1, (Nat.succ_pred_eq_of_pos h).symm⟩
  rw [List.range_succ_eq_map]
  simp

theorem getLast?_map_range {α : Type*} (f : ℕ → α) {n : ℕ} (h : 0 < n) :
    ((List.range n).map f).getLast? = some (f (n - 1)) := by
  obtain ⟨m, rfl⟩ : ∃ m, n = m + 1 := ⟨n - 1, (Nat.succ_pred_eq_of_pos h).symm⟩
  rw [List.range_succ, List.map_append]
  simp

theorem get?_eq_getD {α : Type*} (l : List α) (d : α) {i : ℕ} (h : i < l.length) :
    l.get? i = some (l.getD i d) := by
  rw [List.get?_eq_get h, List.getD_eq_get l d h]

theorem head?_eq_getD {α : Type*} (l : List α) (d : α) (h : 0 < l.length) :
    l.head? = some (l.getD 0 d) := by
  cases l with
  | nil => simp at h
  | cons a t => simp

theorem getLast?_eq_getD {α : Type*} (l : List α) (d : α) (h : 0 < l.length) :
    l.getLast? = some (l.getD (l.length - 1) d) := by
  rw [List.getLast?_eq_get?, get?_eq_getD l d (by omega)]

/-- A length-4 sample route used by concrete witnesses. -/
def r4 : List Pt := [(0, 0), (1, 1), (2, 2), (3, 3)]

/-- Claim C2: for every route, the constraint evaluation equals the number of
waypoints of that route that the external constraint checker flags as unsafe;
in particular it is 0 when the checker flags no waypoint. -/
theorem get_constraints_counts_flagged (checker : ℚ → ℚ → Bool) (route : List Pt) :
    get_constraints checker route
      = (route.filter (fun p => checker p.1 p.2)).length ∧
    ((∀ p ∈ route, checker p.1 p.2 = false) → get_constraints checker route = 0) := by
  have hA : get_constraints checker route
      = (route.filter (fun p => checker p.1 p.2)).length := by
    induction route with
    | nil => rfl
    | cons a t ih =>
      by_cases hc : checker a.1 a.2 <;>
        simp [get_constraints, is_neg_constraints, List.filter_cons, hc] at ih ⊢ <;>
        omega
  refine ⟨hA, fun hall => ?_⟩
  rw [hA, List.length_eq_zero, List.filter_eq_nil]
  intro a ha
  simp [hall a ha]

/-- Witness for C2 at a concrete checker and route on which nothing is
flagged. -/
theorem get_constraints_counts_flagged_witness :
    get_constraints (fun la _ => decide (0 < la)) [((-1 : ℚ), 0), (-2, 3)] = 0 :=
  (get_constraints_counts_flagged (fun la _ => decide (0 < la))
    [((-1 : ℚ), 0), (-2, 3)]).2 (by decide)

/-- Claim C3: for every distance value `d` (the external geodesic oracle
output for the pair of cut points) the connector synthesis returns normally a
connector with exactly `max(round(d/50000) - 1, 0)` intermediate points; in
particular, when `round(d/50000) ≤ 1` (zero or one implied intermediate
points, e.g. coincident cut points) the connector is empty — the numpy
division by the integer zero only warns, it does not raise. -/
theorem get_connection_point_count (d a b c e : ℚ) :
    (get_connection d a b c e).length = (pyRound (d / 50000) - 1).toNat ∧
    (pyRound (d / 50000) ≤ 1 → get_connection d a b c e = []) := by
  constructor
  · simp only [get_connection]
    rw [List.length_map, List.length_range]
  · intro h
    simp only [get_connection]
    rw [show (pyRound (d / 50000) - 1).toNat = 0 by omega]
    rfl

/-- Witness for C3: at distance 0 (coincident cut points, `round(0) = 0`) the
connector is empty and returned normally; at distance 100 km (`round(2) = 2`)
it has one intermediate point. -/
theorem get_connection_point_count_witness :
    (get_connection 0 5 5 5 5).length = (pyRound ((0 : ℚ) / 50000) - 1).toNat ∧
    get_connection 0 5 5 5 5 = [] ∧
    (get_connection 100000 0 0 1 1).length
      = (pyRound ((100000 : ℚ) / 50000) - 1).toNat :=
  ⟨(get_connection_point_count 0 5 5 5 5).1,
   (get_connection_point_count 0 5 5 5 5).2 (by norm_num [pyRound]),
   (get_connection_point_count 100000 0 0 1 1).1⟩

/-- Counterexample for claim C7: on two parents of length 2 (so
`minlength - 2 < 1`), `crossover_noint` fails with the builtin `ValueError`
raised by `random.randint`, which is not the typed `InvalidRouteError` the
claim names. -/
theorem crossover_short_error_type_cex :
    crossover_noint (fun _ _ _ _ => 0) 0 0 [((0 : ℚ), (0 : ℚ)), (1, 1)]
        [((0 : ℚ), (0 : ℚ)), (1, 1)] = .error .valueError ∧
    (Except.error .valueError : Except PyErr (List Pt × List Pt))
      ≠ .error .invalidRouteError := by
  refine ⟨rfl, ?_⟩
  intro h
  exact PyErr.noConfusion (Except.error.inj h)

/-- Claim C7 (amended): for every pair of parents whose shorter one has fewer
than 3 waypoints, `crossover_noint` fails with the builtin `ValueError` raised
by the invalid `random.randint(1, minlength - 2)` draw — a raised, reportable
exception, so no corrupt geometry is produced, but not a typed
`InvalidRouteError` (no such class exists in the code). -/
theorem crossover_short_raises_valueerror (dist : ℚ → ℚ → ℚ → ℚ → ℚ)
    (c1 c2 : ℕ) (p1 p2 : List Pt)
    (h : min p1.length p2.length < 3) :
    crossover_noint dist c1 c2 p1 p2 = .error .valueError := by
  simp only [crossover_noint, if_pos h]

/-- Witness for C7 (amended) on two length-2 parents. -/
theorem crossover_short_raises_valueerror_witness :
    min [((0 : ℚ), (0 : ℚ)), (1, 1)].length [((0 : ℚ), (0 : ℚ)), (1, 1)].length < 3 ∧
    crossover_noint (fun _ _ _ _ => 100000) 1 1 [((0 : ℚ), (0 : ℚ)), (1, 1)]
      [((0 : ℚ), (0 : ℚ)), (1, 1)] = .error .valueError :=
  ⟨by decide, crossover_short_raises_valueerror (fun _ _ _ _ => 100000) 1 1
    [((0 : ℚ), (0 : ℚ)), (1, 1)] [((0 : ℚ), (0 : ℚ)), (1, 1)] (by decide)⟩

/-- Claim C10: the stored crossover probability is never consulted: `_do`
produces the same output for any two values of `prob`, has one result per
mating, and applies `crossover_noint` to every mating pair. -/
theorem crossover_do_ignores_prob (p p' : ℚ) (dist : ℚ → ℚ → ℚ → ℚ → ℚ)
    (draws : ℕ → ℕ × ℕ) (X : List (List Pt × List Pt)) (k : ℕ)
    (hk : k < X.length) :
    (GeneticCrossover.init p).apply_do dist draws X
      = (GeneticCrossover.init p').apply_do dist draws X ∧
    ((GeneticCrossover.init p).apply_do dist draws X).length = X.length ∧
    ((GeneticCrossover.init p).apply_do dist draws X).get? k
      = some (crossover_noint dist (draws k).1 (draws k).2
          (X.getD k ([], [])).1 (X.getD k ([], [])).2) :=
  ⟨rfl, by simp [GeneticCrossover.apply_do], get?_map_range _ hk⟩

/-- Witness for C10 at `prob = 0` versus `prob = 5` on one concrete mating. -/
theorem crossover_do_ignores_prob_witness :
    (GeneticCrossover.init 0).apply_do (fun _ _ _ _ => 100000)
        (fun _ => (1, 2)) [(r4, r4)]
      = (GeneticCrossover.init 5).apply_do (fun _ _ _ _ => 100000)
        (fun _ => (1, 2)) [(r4, r4)] ∧
    ((GeneticCrossover.init 0).apply_do (fun _ _ _ _ => 100000)
        (fun _ => (1, 2)) [(r4, r4)]).length = [(r4, r4)].length ∧
    ((GeneticCrossover.init 0).apply_do (fun _ _ _ _ => 100000)
        (fun _ => (1, 2)) [(r4, r4)]).get? 0
      = some (crossover_noint (fun _ _ _ _ => 100000) 1 2 r4 r4) :=
  crossover_do_ignores_prob 0 5 (fun _ _ _ _ => 100000) (fun _ => (1, 2))
    [(r4, r4)] 0 (by decide)

/-- Counterexample for claim C4: `mutate_move` on the route
`[(0,0),(1,1),(2,2)]` with drawn indices `start = end = 1` and offset `1/2`
leaves the argument changed after the call — the input route object is not
unchanged. -/
theorem mutate_move_mutates_input_cex :
    (mutate_move_call [((0 : ℚ), (0 : ℚ)), (1, 1), (2, 2)] 1 1 (1 / 2)).2
      ≠ [((0 : ℚ), (0 : ℚ)), (1, 1), (2, 2)] := by
  intro h
  have h2 : (mutate_move_call [((0 : ℚ), (0 : ℚ)), (1, 1), (2, 2)] 1 1 (1 / 2)).2.get? 1
      = some (3 / 2, 3 / 2) := by
    show (mutate_move [((0 : ℚ), (0 : ℚ)), (1, 1), (2, 2)] 1 1 (1 / 2)).get? 1 = _
    rw [mutate_move, get?_map_range _ (by decide)]
    norm_num [List.getD]
  rw [h] at h2
  have h3 : ([((0 : ℚ), (0 : ℚ)), (1, 1), (2, 2)] : List Pt).get? 1 = some (1, 1) := rfl
  rw [h3] at h2
  have h4 := congrArg Prod.fst (Option.some.inj h2)
  norm_num at h4

/-- Claim C4 (amended): `mutate_move` mutates its argument in place and
returns the very same object: after the call the argument state equals the
returned route, and it differs from the original route whenever the offset is
nonzero and the drawn indices are in the ranges `random.randint` guarantees. -/
theorem mutate_move_aliases_and_mutates (route : List Pt) (start end_ : ℕ)
    (off : ℚ) (hoff : off ≠ 0) (hs : 1 ≤ start) (hse : start ≤ end_)
    (he : end_ ≤ route.length - 2) (h3 : 3 ≤ route.length) :
    (mutate_move_call route start end_ off).2
      = (mutate_move_call route start end_ off).1 ∧
    (mutate_move_call route start end_ off).2 ≠ route := by
  refine ⟨rfl, ?_⟩
  intro h
  have hlt : start < route.length := by omega
  have h1 := congrArg (fun l => l.get? start) h
  simp only [mutate_move_call] at h1
  rw [mutate_move, get?_map_range _ hlt, get?_eq_getD route (0, 0) hlt] at h1
  have h2 : (if start ≤ start ∧ start ≤ end_ then
        ((route.getD start (0, 0)).1 + off, (route.getD start (0, 0)).2 + off)
      else route.getD start (0, 0)) = route.getD start (0, 0) :=
    Option.some.inj h1
  rw [if_pos ⟨le_refl start, hse⟩] at h2
  have h4 : (route.getD start (0, 0)).1 + off = (route.getD start (0, 0)).1 :=
    congrArg Prod.fst h2
  exact hoff (by linarith)

/-- Witness for C4 (amended) at a concrete route and draws. -/
theorem mutate_move_aliases_and_mutates_witness :
    ((1 : ℚ) / 2 ≠ 0) ∧
    ((mutate_move_call [((0 : ℚ), (0 : ℚ)), (1, 1), (2, 2)] 1 1 (1 / 2)).2
      = (mutate_move_call [((0 : ℚ), (0 : ℚ)), (1, 1), (2, 2)] 1 1 (1 / 2)).1 ∧
    (mutate_move_call [((0 : ℚ), (0 : ℚ)), (1, 1), (2, 2)] 1 1 (1 / 2)).2
      ≠ [((0 : ℚ), (0 : ℚ)), (1, 1), (2, 2)]) :=
  ⟨by norm_num,
   mutate_move_aliases_and_mutates [((0 : ℚ), (0 : ℚ)), (1, 1), (2, 2)] 1 1
     (1 / 2) (by norm_num) (by decide) (by decide) (by decide) (by decide)⟩

/-- `mutate_move` does not touch the first waypoint when `1 ≤ start`. -/
theorem mutate_move_head? (route : List Pt) (start end_ : ℕ) (off : ℚ)
    (hs : 1 ≤ start) (hlen : 0 < route.length) :
    (mutate_move route start end_ off).head? = route.head? := by
  rw [mutate_move, head?_map_range _ hlen, head?_eq_getD route (0, 0) hlen]
  exact congrArg some (if_neg (by omega))

/-- `mutate_move` does not touch the last waypoint when
`end_ ≤ route.length - 2` and the route has at least 3 waypoints. -/
theorem mutate_move_getLast? (route : List Pt) (start end_ : ℕ) (off : ℚ)
    (he : end_ ≤ route.length - 2) (h3 : 3 ≤ route.length) :
    (mutate_move route start end_ off).getLast? = route.getLast? := by
  have hlen : 0 < route.length := by omega
  rw [mutate_move, getLast?_map_range _ hlen, getLast?_eq_getD route (0, 0) hlen]
  exact congrArg some (if_neg (by omega))

/-- Claim C6: for every route of length at least 3 and draws
`start ≤ end` in `[1, len - 2]` (the ranges of the two `randint` calls), the
mutation step — whether or not the perturbation fires — never alters
`route[0]` or `route[-1]`. -/
theorem mutation_preserves_endpoints (prob u : ℚ) (route : List Pt)
    (start end_ : ℕ) (off : ℚ) (h3 : 3 ≤ route.length)
    (hs : 1 ≤ start) (hse : start ≤ end_) (he : end_ ≤ route.length - 2) :
    (gridBasedMutation_do_one prob u start end_ off route).head? = route.head? ∧
    (gridBasedMutation_do_one prob u start end_ off route).getLast? = route.getLast? := by
  have hlen : 0 < route.length := by omega
  unfold gridBasedMutation_do_one
  by_cases hu : u < prob
  · rw [if_pos hu]
    exact ⟨mutate_move_head? route start end_ off hs hlen,
           mutate_move_getLast? route start end_ off he h3⟩
  · rw [if_neg hu]
    exact ⟨rfl, rfl⟩

/-- Witness for C6 on a concrete route, with the perturbation firing
(`u = 0 < 1 = prob`). -/
theorem mutation_preserves_endpoints_witness :
    (3 : ℕ) ≤ ([((0 : ℚ), (0 : ℚ)), (1, 1), (2, 2)] : List Pt).length ∧
    ((gridBasedMutation_do_one 1 0 1 1 7 [((0 : ℚ), (0 : ℚ)), (1, 1), (2, 2)]).head?
      = ([((0 : ℚ), (0 : ℚ)), (1, 1), (2, 2)] : List Pt).head? ∧
    (gridBasedMutation_do_one 1 0 1 1 7 [((0 : ℚ), (0 : ℚ)), (1, 1), (2, 2)]).getLast?
      = ([((0 : ℚ), (0 : ℚ)), (1, 1), (2, 2)] : List Pt).getLast?) :=
  ⟨by decide,
   mutation_preserves_endpoints 1 0 [((0 : ℚ), (0 : ℚ)), (1, 1), (2, 2)] 1 1 7
     (by decide) (by decide) (by decide) (by decide)⟩

/-- Claim C5: for both parents of length at least 4 and every pair of drawn
cut indices, the children are exactly
`parent1[0..=c1] ++ connector1 ++ parent2[c2..]` and
`parent2[0..=c1] ++ connector2 ++ parent1[c2..]` — both children use `c1` for
their head segment and `c2` for their tail segment, whether the synthesized
connectors are empty or not. -/
theorem crossover_noint_children (dist : ℚ → ℚ → ℚ → ℚ → ℚ) (c1 c2 : ℕ)
    (p1 p2 : List Pt) (h4 : 4 ≤ min p1.length p2.length) :
    crossover_noint dist c1 c2 p1 p2 =
      .ok (p1.take (c1 + 1) ++ conn_for dist p1 p2 c1 c2 ++ p2.drop c2,
           p2.take (c1 + 1) ++ conn_for dist p2 p1 c1 c2 ++ p1.drop c2) := by
  have hmin : ¬(min p1.length p2.length < 3) := by omega
  simp only [crossover_noint, if_neg hmin]
  by_cases hc1 : conn_for dist p1 p2 c1 c2 = [] <;>
    by_cases hc2 : conn_for dist p2 p1 c1 c2 = [] <;> simp [hc1, hc2]

/-- Witness for C5 on two concrete length-4 parents at cut indices
`c1 = 1`, `c2 = 2`, with the distance oracle returning 100 km (one connector
point, evaluated). -/
theorem crossover_noint_children_witness :
    4 ≤ min r4.length r4.length ∧
    crossover_noint (fun _ _ _ _ => 100000) 1 2 r4 r4 =
      .ok ([((0 : ℚ), (0 : ℚ)), (1, 1), (3 / 2, 3 / 2), (2, 2), (3, 3)],
           [((0 : ℚ), (0 : ℚ)), (1, 1), (3 / 2, 3 / 2), (2, 2), (3, 3)]) := by
  have hconn : conn_for (fun _ _ _ _ => 100000) r4 r4 1 2
      = [((3 : ℚ) / 2, (3 : ℚ) / 2)] := by
    have hpr : pyRound ((100000 : ℚ) / 50000) = 2 := by norm_num [pyRound]
    simp only [conn_for, get_connection, r4, List.getD, hpr]
    norm_num [List.range_succ]
  refine ⟨by decide, ?_⟩
  rw [crossover_noint_children (fun _ _ _ _ => 100000) 1 2 r4 r4 (by decide), hconn]
  rfl

/-- Counterexample for claim C1: with source `(0,0)` and destination `(0,1)`,
the external-route-file strategy returns the content of `route_1.json` as-is:
a file whose features carry the `[lon, lat]` pairs `(7,5)` and `(8,6)` yields
the single route `[(5,7),(6,8)]`, whose first waypoint `(5,7)` is not the
source `(0,0)`. -/
theorem population_file_route_not_at_source_cex :
    (fromGeojson_do (0, 0) (0, 1) (fun _ _ => (111320, fun s => (0, s / 111320)))
        (fun i => if i = 1 then some [(7, 5), (8, 6)] else none) 1).headD []
      = [((5 : ℚ), (7 : ℚ)), (6, 8)] ∧
    (([((5 : ℚ), (7 : ℚ)), (6, 8)] : List Pt).head? = some (5, 7) ∧
      ((5 : ℚ), (7 : ℚ)) ≠ ((0 : ℚ), (0 : ℚ))) := by
  refine ⟨rfl, rfl, ?_⟩
  intro hcon
  have h5 : (5 : ℚ) = 0 := congrArg Prod.fst hcon
  norm_num at h5

/-- Claim C1 (amended): both initializer strategies return exactly
`sampleCount` routes, and every great-circle fallback route begins at the
source and ends at the destination (given the geodesic library contract that
`Position(0)` is the start point and `Position(s13)` the end point, with
`s13 > 0`); routes loaded from files are returned exactly as read, with no
endpoint guarantee (see the counterexample). -/
theorem population_count_and_fallback_endpoints
    (sampleRoute : ℕ → List Pt) (src dest : Pt)
    (inverseLine : Pt → Pt → ℚ × (ℚ → Pt))
    (files : ℕ → Option (List (ℚ × ℚ))) (n : ℕ)
    (h0 : (inverseLine src dest).2 0 = src)
    (hL : (inverseLine src dest).2 (inverseLine src dest).1 = dest)
    (hpos : 0 < (inverseLine src dest).1) :
    (gridBased_do sampleRoute n).length = n ∧
    (fromGeojson_do src dest inverseLine files n).length = n ∧
    (get_great_circle_route inverseLine src dest 100000).head? = some src ∧
    (get_great_circle_route inverseLine src dest 100000).getLast? = some dest := by
  refine ⟨by simp [gridBased_do], by simp [fromGeojson_do], ?_, ?_⟩
  · simp only [get_great_circle_route]
    rw [head?_map_range _ (Nat.succ_pos _)]
    refine congrArg some ?_
    show (inverseLine src dest).2
        (min (100000 * ((0 : ℕ) : ℚ)) (inverseLine src dest).1) = src
    rw [Nat.cast_zero, mul_zero, min_eq_left hpos.le, h0]
  · simp only [get_great_circle_route]
    rw [getLast?_map_range _ (Nat.succ_pos _)]
    refine congrArg some ?_
    have hc1 : (0 : ℤ) < Int.ceil ((inverseLine src dest).1 / 100000) :=
      Int.ceil_pos.mpr (by positivity)
    have hcast : (((Int.ceil ((inverseLine src dest).1 / 100000)).toNat : ℕ) : ℚ)
        = ((Int.ceil ((inverseLine src dest).1 / 100000) : ℤ) : ℚ) := by
      exact_mod_cast congrArg (Int.cast : ℤ → ℚ) (Int.toNat_of_nonneg hc1.le)
    have hle : (inverseLine src dest).1
        ≤ 100000 * (((Int.ceil ((inverseLine src dest).1 / 100000)).toNat : ℕ) : ℚ) := by
      rw [hcast]
      have h2 := Int.le_ceil ((inverseLine src dest).1 / 100000)
      have h3 : (inverseLine src dest).1 / 100000
          ≤ ((Int.ceil ((inverseLine src dest).1 / 100000) : ℤ) : ℚ) := h2
      rw [div_le_iff (by norm_num : (0 : ℚ) < 100000)] at h3
      linarith
    show (inverseLine src dest).2
        (min (100000 *
          ((((Int.ceil ((inverseLine src dest).1 / 100000)).toNat + 1 - 1 : ℕ)) : ℚ))
          (inverseLine src dest).1) = dest
    rw [Nat.add_sub_cancel, min_eq_right hle, hL]

/-- Witness for C1 (amended) at a concrete geodesic oracle for
source `(0,0)`, destination `(0,1)`, total length 111320 m, and 3 samples. -/
theorem population_count_and_fallback_endpoints_witness :
    (gridBased_do (fun _ => []) 3).length = 3 ∧
    (fromGeojson_do (0, 0) (0, 1) (fun _ _ => (111320, fun s => (0, s / 111320)))
        (fun _ => none) 3).length = 3 ∧
    (get_great_circle_route (fun _ _ => (111320, fun s => (0, s / 111320)))
        (0, 0) (0, 1) 100000).head? = some (0, 0) ∧
    (get_great_circle_route (fun _ _ => (111320, fun s => (0, s / 111320)))
        (0, 0) (0, 1) 100000).getLast? = some (0, 1) :=
  population_count_and_fallback_endpoints (fun _ => []) (0, 0) (0, 1)
    (fun _ _ => (111320, fun s => (0, s / 111320))) (fun _ => none) 3
    (by norm_num) (by norm_num) (by norm_num)

/-- Counterexample for claim C8: a failing plot hook is not caught at the
call site — for both strategies the failure propagates out and the routes are
not returned. -/
theorem population_hook_failure_cex :
    fromGeojson_do_plot (fun _ => .error .valueError) (0, 0) (0, 1)
        (fun _ _ => (111320, fun s => (0, s / 111320))) (fun _ => none) 2
      = .error .valueError ∧
    gridBased_do_plot (fun _ => .error .valueError) (fun _ => []) 2
      = .error .valueError :=
  ⟨rfl, rfl⟩

/-- Claim C8 (amended): the diagnostic hook is invoked unguarded after the
population is generated: a failure it raises propagates to the caller of the
initializer, and the routes are returned exactly when the hook succeeds —
for both strategies. -/
theorem population_result_follows_hook (hook : List (List Pt) → Except PyErr Unit)
    (src dest : Pt) (inverseLine : Pt → Pt → ℚ × (ℚ → Pt))
    (files : ℕ → Option (List (ℚ × ℚ))) (sampleRoute : ℕ → List Pt) (n : ℕ) :
    (∀ e, hook (fromGeojson_do src dest inverseLine files n) = .error e →
      fromGeojson_do_plot hook src dest inverseLine files n = .error e) ∧
    (hook (fromGeojson_do src dest inverseLine files n) = .ok () →
      fromGeojson_do_plot hook src dest inverseLine files n
        = .ok (fromGeojson_do src dest inverseLine files n)) ∧
    (∀ e, hook (gridBased_do sampleRoute n) = .error e →
      gridBased_do_plot hook sampleRoute n = .error e) ∧
    (hook (gridBased_do sampleRoute n) = .ok () →
      gridBased_do_plot hook sampleRoute n = .ok (gridBased_do sampleRoute n)) := by
  refine ⟨fun e he => ?_, fun hok => ?_, fun e he => ?_, fun hok => ?_⟩
  · simp only [fromGeojson_do_plot, he]
  · simp only [fromGeojson_do_plot, hok]
  · simp only [gridBased_do_plot, he]
  · simp only [gridBased_do_plot, hok]

/-- Witness for C8 (amended): with a succeeding hook both initializers return
their routes. -/
theorem population_result_follows_hook_witness :
    fromGeojson_do_plot (fun _ => .ok ()) (0, 0) (0, 1)
        (fun _ _ => (111320, fun s => (0, s / 111320))) (fun _ => none) 1
      = .ok (fromGeojson_do (0, 0) (0, 1)
          (fun _ _ => (111320, fun s => (0, s / 111320))) (fun _ => none) 1) ∧
    gridBased_do_plot (fun _ => .ok ()) (fun _ => []) 1
      = .ok (gridBased_do (fun _ => []) 1) := by
  have h := population_result_follows_hook (fun _ => .ok ()) (0, 0) (0, 1)
    (fun _ _ => (111320, fun s => (0, s / 111320))) (fun _ => none)
    (fun _ => []) 1
  exact ⟨h.2.1 rfl, h.2.2.2 rfl⟩

/-- Claim C9: when the artifact `route_<i+1>.json` is absent, sample `i` is
the great-circle fallback at the default 100 km step, and that route has
exactly `ceil(s13 / 100000) + 1` points (the final segment clipped by the
`min`); the concrete `(0,0) → (0,1)` scenario with `s13 = 111320 m` giving 3
points is in the witness. -/
theorem fallback_route_point_count (src dest : Pt)
    (inverseLine : Pt → Pt → ℚ × (ℚ → Pt)) (files : ℕ → Option (List (ℚ × ℚ)))
    (n i : ℕ) (hi : i < n) (hnone : files (i + 1) = none) :
    (fromGeojson_do src dest inverseLine files n).get? i
      = some (get_great_circle_route inverseLine src dest 100000) ∧
    (get_great_circle_route inverseLine src dest 100000).length
      = (Int.ceil ((inverseLine src dest).1 / 100000)).toNat + 1 := by
  constructor
  · rw [fromGeojson_do, get?_map_range _ hi]
    exact congrArg some (by rw [hnone])
  · simp only [get_great_circle_route]
    rw [List.length_map, List.length_range]

/-- Witness for C9: the empty-directory scenario with `source = (0,0)`,
`destination = (0,1)` and geodesic length 111320 m — the fallback is used and
has exactly 3 points. -/
theorem fallback_route_point_count_witness :
    (fromGeojson_do (0, 0) (0, 1) (fun _ _ => (111320, fun s => (0, s / 111320)))
        (fun _ => none) 2).get? 0
      = some (get_great_circle_route (fun _ _ => (111320, fun s => (0, s / 111320)))
          (0, 0) (0, 1) 100000) ∧
    (get_great_circle_route (fun _ _ => (111320, fun s => (0, s / 111320)))
        (0, 0) (0, 1) 100000).length = 3 := by
  have h := fallback_route_point_count (0, 0) (0, 1)
    (fun _ _ => (111320, fun s => (0, s / 111320))) (fun _ => none) 2 0
    (by decide) rfl
  refine ⟨h.1, ?_⟩
  rw [h.2]
  show (Int.ceil ((111320 : ℚ) / 100000)).toNat + 1 = 3
  rw [show Int.ceil ((111320 : ℚ) / 100000) = 2 by rw [Int.ceil_eq_iff] <;> norm_num]
  rfl

end GeneticUtils
